import Mathlib

/-!
Verification development for the tab-session controller in
`pyppeteer/page.py`.  The definitions below are a shallow embedding of the
functions of that file: Python numbers are modelled as `ℚ` (exact
arithmetic), Python dicts keyed by strings as insertion-ordered association
lists, raised exceptions as `Except PyError`, and the commands a method
sends to the DevTools session as an explicit list of `Cmd` values.
-/

/-- Python exceptions raised by the code under study. -/
inductive PyError where
  | pageError (msg : String)
  | valueError (msg : String)
  | typeError (msg : String)
  | indexError
  | keyError (k : String)
  | attributeError (attr : String)
deriving DecidableEq, Repr

/-- The spec's `UsageError` family: caller-fault errors surfaced
synchronously (`PageError`, `ValueError`, `TypeError` in the source). -/
def PyError.isUsageError : PyError → Bool
  | .pageError _ => true
  | .valueError _ => true
  | .typeError _ => true
  | _ => false

/-- Equality of `Except` results is decidable when both components
are. -/
instance {ε α : Type} [DecidableEq ε] [DecidableEq α] :
    DecidableEq (Except ε α) := fun x y =>
  match x, y with
  | .ok a, .ok b =>
    if h : a = b then .isTrue (by rw [h]) else .isFalse (by simp [h])
  | .error a, .error b =>
    if h : a = b then .isTrue (by rw [h]) else .isFalse (by simp [h])
  | .ok _, .error _ => .isFalse (by simp)
  | .error _, .ok _ => .isFalse (by simp)

/-- Python `dict` assignment `d[k] = v`: update in place when the key is
present (insertion order preserved), else append. -/
def dictSet {α : Type} (d : List (String × α)) (k : String) (v : α) :
    List (String × α) :=
  if (d.lookup k).isSome then
    d.map (fun p => if p.1 = k then (k, v) else p)
  else
    d ++ [(k, v)]

/-- Lowercase a string character-wise (Python `str.lower` on ASCII). -/
def strLower (s : String) : String :=
  String.mk (s.data.map Char.toLower)

/-- Python slice `text[-2:]`: the last two characters (the whole string
when it is shorter than two characters). -/
def lastTwoChars (s : String) : String :=
  String.mk (s.data.drop (s.data.length - 2))

/-- Python slice `text[:-2]`: everything but the last two characters. -/
def dropLastTwoChars (s : String) : String :=
  String.mk (s.data.take (s.data.length - 2))

/-- Split a character list at every dot (Python `str.split` used to read a
decimal literal). -/
def splitDots : List Char → List (List Char)
  | [] => [[]]
  | c :: rest =>
    let r := splitDots rest
    if c = '.' then [] :: r
    else
      match r with
      | h :: t => (c :: h) :: t
      | [] => [[c]]

/-- Numeric value of a digit list (most significant first). -/
def natOfDigits (cs : List Char) : Nat :=
  cs.foldl (fun acc c => 10 * acc + (c.toNat - 48)) 0

/-- Unsigned decimal literal: digits with one optional dot, at least one
digit present somewhere (Python accepts `"1."` and `".5"`). -/
def parsePyFloatCore (cs : List Char) : Option ℚ :=
  match splitDots cs with
  | [w] =>
    if (!w.isEmpty) && w.all Char.isDigit then some (natOfDigits w : ℚ)
    else none
  | [w, f] =>
    if ((!w.isEmpty) || (!f.isEmpty)) && w.all Char.isDigit
        && f.all Char.isDigit then
      some ((natOfDigits w : ℚ) + (natOfDigits f : ℚ) / ((10 : ℚ) ^ f.length))
    else none
  | _ => none

/-- Python `float(text)` on plain decimal literals with an optional sign
(exponents, specials and surrounding whitespace are outside the inputs the
claims exercise and are not modelled). -/
def parsePyFloat (s : String) : Option ℚ :=
  match s.data with
  | '-' :: rest => (parsePyFloatCore rest).map Neg.neg
  | '+' :: rest => parsePyFloatCore rest
  | cs => parsePyFloatCore cs

/-- The module-level `unitToPixels` table of `page.py`. -/
def unitToPixels : List (String × ℚ) :=
  [("px", 1), ("in", 96), ("cm", 37.8), ("mm", 3.78)]

/-- The argument type of `convertPrintParameterToInches`
(`Union[None, int, float, str]`; `None` is the surrounding `Option`). -/
inductive PrintParam where
  | num (n : ℚ)
  | str (s : String)
deriving DecidableEq, Repr

/-- `convertPrintParameterToInches` of `page.py`: numbers are pixels;
strings carry an optional two-character unit suffix, defaulting to pixels
when the suffix is not in `unitToPixels`; the result is in inches
(pixels / 96).  A string whose numeric part does not parse raises
`ValueError`. -/
def convertPrintParameterToInches :
    Option PrintParam → Except PyError (Option ℚ)
  | none => .ok none
  | some (.num n) => .ok (some (n / 96))
  | some (.str text) =>
    match unitToPixels.lookup (strLower (lastTwoChars text)) with
    | some px =>
      match parsePyFloat (dropLastTwoChars text) with
      | none =>
        .error (.valueError ("Failed to parse parameter value: " ++ text))
      | some value => .ok (some (value * px / 96))
    | none =>
      match parsePyFloat text with
      | none =>
        .error (.valueError ("Failed to parse parameter value: " ++ text))
      | some value => .ok (some (value * 1 / 96))

/-- The `Page.PaperFormats` table: name → (width, height) in inches. -/
def PaperFormats : List (String × ℚ × ℚ) :=
  [("letter", 8.5, 11), ("legal", 8.5, 14), ("tabloid", 11, 17),
   ("ledger", 17, 11), ("a0", 33.1, 46.8), ("a1", 23.4, 33.1),
   ("a2", 16.5, 23.4), ("a3", 11.7, 16.5), ("a4", 8.27, 11.7),
   ("a5", 5.83, 8.27)]

/-- Python truthiness fallback `x or default` on an optional float result:
`None` and `0.0` both fall back. -/
def pyOrQ (x : Option ℚ) (d : ℚ) : ℚ :=
  match x with
  | none => d
  | some v => if v = 0 then d else v

/-- The `margin` sub-dictionary of `Page.pdf` options. -/
structure PdfMargin where
  top : Option PrintParam := none
  left : Option PrintParam := none
  bottom : Option PrintParam := none
  right : Option PrintParam := none
deriving DecidableEq, Repr

/-- Options accepted by `Page.pdf` (dict keys as optional fields, with the
source's defaults for absent keys). -/
structure PdfOptions where
  scale : ℚ := 1
  displayHeaderFooter : Bool := false
  headerTemplate : String := ""
  footerTemplate : String := ""
  printBackground : Bool := false
  landscape : Bool := false
  pageRanges : String := ""
  format : Option String := none
  width : Option PrintParam := none
  height : Option PrintParam := none
  margin : PdfMargin := {}
  path : Option String := none
deriving DecidableEq, Repr

/-- Parameter payload of the `Page.printToPDF` command built by
`Page.pdf`. -/
structure PdfParams where
  landscape : Bool
  displayHeaderFooter : Bool
  headerTemplate : String
  footerTemplate : String
  printBackground : Bool
  scale : ℚ
  paperWidth : ℚ
  paperHeight : ℚ
  marginTop : ℚ
  marginBottom : ℚ
  marginLeft : ℚ
  marginRight : ℚ
  pageRanges : String
deriving DecidableEq, Repr

/-- `Page.pdf` of `page.py` up to the `Page.printToPDF` command: a
returned `.ok` value is the payload of the single print command issued;
`.error` means the method raised before issuing any command. -/
def pdf (options : PdfOptions) : Except PyError PdfParams :=
  let paperDims : Except PyError (ℚ × ℚ) :=
    match options.format with
    | some fmt =>
      match PaperFormats.lookup (strLower fmt) with
      | none => .error (.valueError ("Unknown paper format: " ++ fmt))
      | some wh => .ok wh
    | none =>
      match convertPrintParameterToInches options.width with
      | .error e => .error e
      | .ok w =>
        match convertPrintParameterToInches options.height with
        | .error e => .error e
        | .ok h => .ok (pyOrQ w 8.5, pyOrQ h 11.0)
  match paperDims with
  | .error e => .error e
  | .ok (paperWidth, paperHeight) =>
    match convertPrintParameterToInches options.margin.top with
    | .error e => .error e
    | .ok mt =>
      match convertPrintParameterToInches options.margin.left with
      | .error e => .error e
      | .ok ml =>
        match convertPrintParameterToInches options.margin.bottom with
        | .error e => .error e
        | .ok mb =>
          match convertPrintParameterToInches options.margin.right with
          | .error e => .error e
          | .ok mr =>
            .ok { landscape := options.landscape
                  displayHeaderFooter := options.displayHeaderFooter
                  headerTemplate := options.headerTemplate
                  footerTemplate := options.footerTemplate
                  printBackground := options.printBackground
                  scale := options.scale
                  paperWidth := paperWidth
                  paperHeight := paperHeight
                  marginTop := pyOrQ mt 0
                  marginBottom := pyOrQ mb 0
                  marginLeft := pyOrQ ml 0
                  marginRight := pyOrQ mr 0
                  pageRanges := options.pageRanges }

/-- A DevTools remote object as it appears in a `Runtime.consoleAPICalled`
notification: `value?` is the primitive `value` entry of the JSON object
when present (non-string primitives are carried by their textual form;
they never equal the sentinel the detection compares against). -/
structure RemoteObject where
  value? : Option String := none
deriving DecidableEq, Repr

/-- A `Runtime.consoleAPICalled` notification. -/
structure ConsoleEvent where
  type : String
  args : List RemoteObject
  executionContextId : Nat
deriving DecidableEq, Repr

/-- The task `helper.valueFromRemoteObject(arg)` scheduled for one console
argument (the helper lives outside this file; the wrapper records which
remote object the materialized value comes from). -/
structure PendingValue where
  source : RemoteObject
deriving DecidableEq, Repr

/-- `helper.valueFromRemoteObject` scheduled as a task. -/
def valueFromRemoteObject (r : RemoteObject) : PendingValue := ⟨r⟩

/-- Observable outcome of `Page._onConsoleAPI` for one notification. -/
inductive ConsoleAction where
  /-- The disguised page-binding branch: the decoded record (the raw JSON
  text of the second argument) is routed to the function-exposure bridge
  and no public console event is emitted. -/
  | dispatchBinding (payload : String) (contextId : Nat)
  /-- No listener: a `releaseObject` task is scheduled for every argument
  and nothing is emitted. -/
  | releaseAll (args : List RemoteObject)
  /-- At least one listener: one `console` event is emitted carrying the
  materialization tasks of the arguments in their original order. -/
  | emitConsole (values : List PendingValue)
deriving DecidableEq, Repr

/-- The non-binding tail of `Page._onConsoleAPI`: release every argument
when no `console` listener is subscribed, else emit one `console` event
with the per-argument materialization tasks in call order. -/
def onConsoleDefault (hasListeners : Bool) (e : ConsoleEvent) :
    ConsoleAction :=
  if hasListeners then .emitConsole (e.args.map valueFromRemoteObject)
  else .releaseAll e.args

/-- `Page._onConsoleAPI`.  The detection
`event.get('type') == 'debug' and _args and
_args[0]['value'] == 'driver:page-binding'` reads `['value']` on the first
argument, which raises `KeyError` when that argument has no primitive
value; the binding branch then reads `_args[1]['value']` the same way. -/
def onConsoleAPI (hasListeners : Bool) (e : ConsoleEvent) :
    Except PyError ConsoleAction :=
  match e.args with
  | [] => .ok (onConsoleDefault hasListeners e)
  | a :: rest =>
    if e.type = "debug" then
      match a.value? with
      | none => .error (.keyError "value")
      | some v =>
        if v = "driver:page-binding" then
          match rest with
          | [] => .error .indexError
          | b :: _ =>
            match b.value? with
            | none => .error (.keyError "value")
            | some payload =>
              .ok (.dispatchBinding payload e.executionContextId)
        else .ok (onConsoleDefault hasListeners e)
    else .ok (onConsoleDefault hasListeners e)

/-- Whether the detection in `Page._onConsoleAPI` classifies the
notification as a disguised page-binding record. -/
def isPageBindingRecord (e : ConsoleEvent) : Bool :=
  match e.args with
  | [] => false
  | a :: _ =>
    if e.type = "debug" then a.value? == some "driver:page-binding"
    else false

/-- Whether the detection itself faults: the notification is debug-typed
with a first argument that has no primitive `value` entry, so
`_args[0]['value']` raises `KeyError`. -/
def bindingProbeFaults (e : ConsoleEvent) : Bool :=
  match e.args with
  | [] => false
  | a :: _ =>
    if e.type = "debug" then a.value?.isNone else false

/-- Commands and local effects a controller method performs, in order. -/
inductive Cmd where
  | activateTarget
  | getLayoutMetrics
  | setDeviceMetricsOverride (mobile : Bool) (width height : ℤ)
      (deviceScaleFactor : ℚ) (angle : Nat) (orientationType : String)
  | setDefaultBackgroundColorOverride (transparent : Bool)
  | captureScreenshot (format : String) (clip : Option (ℚ × ℚ × ℚ × ℚ × ℚ))
  | emulateViewport (width height : ℤ) (isMobile : Option Bool)
      (deviceScaleFactor : Option ℚ) (isLandscape : Option Bool)
  | reload
  | writeFile (path : String)
  | addScriptToEvaluateOnNewDocument (name : String)
  | evaluateInFrame (frame : Nat) (name : String)
deriving DecidableEq, Repr

/-- Result of one `Page.exposeFunction` call: the bindings dict after the
call, the commands it sent, and the exception it raised, if any. -/
structure ExposeOutcome (α : Type) where
  pageBindings : List (String × α)
  commands : List Cmd
  error? : Option PyError
deriving DecidableEq, Repr

/-- `Page.exposeFunction`: reject a name that is already bound before
sending anything; otherwise record the callable and inject the bootstrap
script (once for future documents, once per current frame). -/
def exposeFunction {α : Type} (pageBindings : List (String × α))
    (frames : List Nat) (name : String) (fn : α) : ExposeOutcome α :=
  if (pageBindings.lookup name).isSome then
    { pageBindings := pageBindings
      commands := []
      error? := some (.pageError ("Failed to add page binding with name "
        ++ name ++ ": window[\"" ++ name ++ "\"] already exists!")) }
  else
    { pageBindings := dictSet pageBindings name fn
      commands := Cmd.addScriptToEvaluateOnNewDocument name
        :: frames.map (fun f => Cmd.evaluateInFrame f name)
      error? := none }

/-- The module-level `supportedMetrics` tuple of `page.py`. -/
def supportedMetrics : List String :=
  ["Timestamp", "Documents", "Frames", "JSEventListeners", "Nodes",
   "LayoutCount", "RecalcStyleCount", "LayoutDuration",
   "RecalcStyleDuration", "ScriptDuration", "TaskDuration",
   "JSHeapUsedSize", "JSHeapTotalSize"]

/-- One entry of a `Performance.metrics` notification's metric list. -/
structure MetricEntry where
  name : String
  value : ℚ
deriving DecidableEq, Repr

/-- `Page._buildMetricsObject`: keep only allowlisted names, building a
dict in insertion order (a repeated name overwrites in place). -/
def buildMetricsObject (metrics : List MetricEntry) : List (String × ℚ) :=
  metrics.foldl
    (fun result m =>
      if supportedMetrics.contains m.name then dictSet result m.name m.value
      else result)
    []

/-- The `Page.Events` namespace exactly as declared in `page.py` lines
36-49: attribute name → public event name.  It has no `Metrics` entry. -/
def pageEventsAttrs : List (String × String) :=
  [("Console", "console"), ("Dialog", "dialog"), ("Error", "error"),
   ("PageError", "pageerror"), ("Request", "request"),
   ("Response", "response"), ("RequestFailed", "requestfailed"),
   ("RequestFinished", "requestfinished"),
   ("FrameAttached", "frameattached"), ("FrameDetached", "framedetached"),
   ("FrameNavigated", "framenavigated"), ("Load", "load")]

/-- Python attribute access `Page.Events.<attr>` on the `SimpleNamespace`:
a missing attribute raises `AttributeError`. -/
def pageEventsAttr (attr : String) : Except PyError String :=
  match pageEventsAttrs.lookup attr with
  | some v => .ok v
  | none => .error (.attributeError attr)

/-- `Page._emitMetrics`: emit `Page.Events.Metrics` with the page title
and the filtered mapping.  Python evaluates the event-name argument
`Page.Events.Metrics` first, so an `AttributeError` there aborts the
handler before anything is emitted.  `.ok (ev, title, mapping)` stands for
one emitted event named `ev`. -/
def _emitMetrics (title : String) (metrics : List MetricEntry) :
    Except PyError (String × String × List (String × ℚ)) :=
  match pageEventsAttr "Metrics" with
  | .error e => .error e
  | .ok ev => .ok (ev, title, buildMetricsObject metrics)

/-- One entry of the `Page.getNavigationHistory` result. -/
structure HistoryEntry where
  id : Nat
deriving DecidableEq, Repr

/-- The `Page.getNavigationHistory` result. -/
structure NavHistory where
  currentIndex : Nat
  entries : List HistoryEntry
deriving DecidableEq, Repr

/-- Python list indexing `l[i]`: negative indices count from the end;
out-of-range access yields no element (an `IndexError` at the use site). -/
def pyListGet {α : Type} (l : List α) (i : ℤ) : Option α :=
  if 0 ≤ i then l.get? i.toNat
  else if -i ≤ (l.length : ℤ) then l.get? (l.length - (-i).toNat)
  else none

/-- `Page._go`: read the navigation history, compute
`_count = currentIndex + delta`, return `None` when
`len(entries) < _count`, else navigate to `entries[_count]`.
`.ok none` means the call returns `None` and issues no
`Page.navigateToHistoryEntry` command; `.ok (some id)` means it issues
`Page.navigateToHistoryEntry` for the entry with that id (racing it with
`waitForNavigation`); `.error` means the indexing raised. -/
def _go (history : NavHistory) (delta : ℤ) : Except PyError (Option Nat) :=
  let _count : ℤ := (history.currentIndex : ℤ) + delta
  let entries := history.entries
  if (entries.length : ℤ) < _count then .ok none
  else
    match pyListGet entries _count with
    | none => .error .indexError
    | some entry => .ok (some entry.id)

/-- `Page.goBack`: `_go` with offset `-1`. -/
def goBack (history : NavHistory) : Except PyError (Option Nat) :=
  _go history (-1)

/-- `Page.goForward`: `_go` with offset `+1`. -/
def goForward (history : NavHistory) : Except PyError (Option Nat) :=
  _go history 1

/-- A network request observed by the request listener `Page.goto`
installs; `response?` is the response object attached to it (abstract
id), if any. -/
structure PyRequest where
  url : String
  response? : Option Nat := none
deriving DecidableEq, Repr

/-- Environment of one `Page.goto` call: what the session and the watcher
do when consulted.  `navigateOutcome` is the `Page.navigate` round trip
(`.error` = the command itself raised, `.ok (some t)` = it returned an
`errorText t`, `.ok none` = success); `watcherError` is the navigation
error the watcher reports on completion, if any; `requestsSeen` are the
requests the installed listener observes, in arrival order; `finalUrl` is
the main frame's URL at settlement. -/
structure GotoEnv where
  navigateOutcome : Except PyError (Option String)
  watcherError : Option PyError := none
  requestsSeen : List PyRequest := []
  finalUrl : String := ""
deriving DecidableEq, Repr

/-- The URL-keyed request map a navigation call accumulates (last write
per URL wins). -/
def buildRequestMap (rs : List PyRequest) : List (String × PyRequest) :=
  rs.foldl (fun m r => dictSet m r.url r) []

/-- Settlement of a navigation-triggering call: whether the
navigation-scoped listeners were unsubscribed, whether the lifecycle
watcher was cancelled, and the returned response or raised error. -/
structure NavSettlement where
  listenersRemoved : Bool
  watcherCancelled : Bool
  outcome : Except PyError (Option Nat)
deriving DecidableEq, Repr

/-- `Page.goto`: install the request listener, create the watcher, issue
`Page.navigate`; a synchronous navigate failure (raised command or
`errorText`) raises immediately — before the `watcher.cancel()` /
`removeEventListeners` lines are reached; otherwise await the watcher,
cancel it, remove the listeners, then raise any watcher error or return
the response mapped to the main frame's URL. -/
def goto (env : GotoEnv) : NavSettlement :=
  match env.navigateOutcome with
  | .error e =>
    { listenersRemoved := false, watcherCancelled := false
      outcome := .error e }
  | .ok (some errorText) =>
    { listenersRemoved := false, watcherCancelled := false
      outcome := .error (.pageError errorText) }
  | .ok none =>
    match env.watcherError with
    | some e =>
      { listenersRemoved := true, watcherCancelled := true
        outcome := .error e }
    | none =>
      { listenersRemoved := true, watcherCancelled := true
        outcome := .ok (((buildRequestMap env.requestsSeen).lookup
          env.finalUrl).bind (fun r => r.response?)) }

/-- Environment of one `Page.waitForNavigation` call. -/
structure WaitForNavigationEnv where
  watcherError : Option PyError := none
  responsesSeen : List (String × Nat) := []
  pageUrl : String := ""
deriving DecidableEq, Repr

/-- `Page.waitForNavigation`: install the response listener, await the
watcher, remove the listener, then raise any watcher error or return the
response recorded for the current page URL.  No line of the method ever
calls `watcher.cancel()`. -/
def waitForNavigation (env : WaitForNavigationEnv) : NavSettlement :=
  let responses := env.responsesSeen.foldl
    (fun m p => dictSet m p.1 p.2) []
  match env.watcherError with
  | some e =>
    { listenersRemoved := true, watcherCancelled := false
      outcome := .error e }
  | none =>
    { listenersRemoved := true, watcherCancelled := false
      outcome := .ok (responses.lookup env.pageUrl) }

/-- The viewport dict held in `Page._viewport`: `width`/`height` are
always supplied by callers of `setViewport`; the three flags are optional
keys read with `dict.get` defaults. -/
structure Viewport where
  width : ℤ
  height : ℤ
  isMobile : Option Bool := none
  deviceScaleFactor : Option ℚ := none
  isLandscape : Option Bool := none
deriving DecidableEq, Repr

/-- `Page.setViewport`: ask the emulation manager to apply the viewport
(external collaborator — whether a reload is needed is its answer,
supplied here as `needsReload`), store the viewport, and perform a full
reload when asked.  Returns the operations performed, in order, and the
new `_viewport`. -/
def setViewport (needsReload : Bool) (viewport : Viewport) :
    List Cmd × Viewport :=
  (Cmd.emulateViewport viewport.width viewport.height viewport.isMobile
      viewport.deviceScaleFactor viewport.isLandscape
    :: (if needsReload then [Cmd.reload] else []),
   viewport)

/-- `math.ceil` on an exact rational. -/
def mathCeil (q : ℚ) : ℤ := Rat.ceil q

/-- Options of `Page.screenshot` (dict keys as optional fields). -/
structure ScreenshotOptions where
  type? : Option String := none
  path : Option String := none
  clip : Option (ℚ × ℚ × ℚ × ℚ) := none
  fullPage : Bool := false
  omitBackground : Bool := false
deriving DecidableEq, Repr

/-- Environment of one `Page._screenshotTask` call: the layout metrics the
session reports, the outcome of `Page.captureScreenshot` (`.ok` carries
the base64 payload), and the emulation manager's needs-reload answer for
the viewport restore. -/
structure ScreenshotEnv where
  contentWidth : ℚ
  contentHeight : ℚ
  captureResult : Except PyError String
  needsReload : Bool := false
deriving DecidableEq, Repr

/-- `Page._screenshotTask`: activate the target; for a full-page shot read
the layout metrics and override the device metrics to the content size;
apply the transparent-background override when asked; capture; then (only
after a successful capture — the method has no try/finally) undo the
background override, restore the viewport via `setViewport(_viewport)`,
and write the file when a path was given.  Returns the operations
performed, in order, and the captured payload or the raised error
(byte-level base64 decoding of the payload is not modelled). -/
def _screenshotTask (env : ScreenshotEnv) (format : String)
    (options : ScreenshotOptions) (viewport : Viewport) :
    List Cmd × Except PyError String :=
  let clip0 : Option (ℚ × ℚ × ℚ × ℚ × ℚ) :=
    options.clip.map (fun c => (c.1, c.2.1, c.2.2.1, c.2.2.2, 1))
  let width : ℤ := mathCeil env.contentWidth
  let height : ℤ := mathCeil env.contentHeight
  let clip : Option (ℚ × ℚ × ℚ × ℚ × ℚ) :=
    if options.fullPage then some (0, 0, (width : ℚ), (height : ℚ), 1)
    else clip0
  let landscape := viewport.isLandscape.getD false
  let pre : List Cmd :=
    Cmd.activateTarget
    :: (if options.fullPage then
          [Cmd.getLayoutMetrics,
           Cmd.setDeviceMetricsOverride (viewport.isMobile.getD false)
             width height (viewport.deviceScaleFactor.getD 1)
             (if landscape then 90 else 0)
             (if landscape then "landscapePrimary" else "portraitPrimary")]
        else [])
    ++ (if options.omitBackground then
          [Cmd.setDefaultBackgroundColorOverride true]
        else [])
    ++ [Cmd.captureScreenshot format clip]
  match env.captureResult with
  | .error e => (pre, .error e)
  | .ok data =>
    let post : List Cmd :=
      (if options.omitBackground then
        [Cmd.setDefaultBackgroundColorOverride false]
      else [])
      ++ (if options.fullPage then (setViewport env.needsReload viewport).1
          else [])
      ++ (match options.path with
          | some p => [Cmd.writeFile p]
          | none => [])
    (pre ++ post, .ok data)

/-- The emulated device-metrics state of the browser tab, as far as the
commands of this file change it: either the metrics that follow from an
applied viewport, or an explicit device-metrics override. -/
inductive EmuState where
  | fromViewport (v : Viewport)
  | overridden (mobile : Bool) (width height : ℤ) (deviceScaleFactor : ℚ)
      (angle : Nat) (orientationType : String)
deriving DecidableEq, Repr

/-- How one operation changes the emulated device-metrics state. -/
def emuStep (s : EmuState) : Cmd → EmuState
  | Cmd.setDeviceMetricsOverride m w h d a t => .overridden m w h d a t
  | Cmd.emulateViewport w h im dsf il =>
    .fromViewport { width := w, height := h, isMobile := im,
                    deviceScaleFactor := dsf, isLandscape := il }
  | _ => s

/-- The emulated device-metrics state after a list of operations. -/
def emuAfter (init : EmuState) (cmds : List Cmd) : EmuState :=
  cmds.foldl emuStep init

/-- The stdlib `mimetypes.guess_type` table restricted to common
extensions (the extension of the path, lowercased; unknown extensions and
extension-less paths yield `None`). -/
def mimeTable : List (String × String) :=
  [("png", "image/png"), ("jpg", "image/jpeg"), ("jpeg", "image/jpeg"),
   ("jpe", "image/jpeg"), ("gif", "image/gif"), ("bmp", "image/bmp"),
   ("txt", "text/plain"), ("pdf", "application/pdf"),
   ("html", "text/html")]

/-- The extension of a path: the part after the last dot, lowercased;
none when the path contains no dot. -/
def fileExtension (p : String) : Option String :=
  match (splitDots p.data).reverse with
  | e :: _ :: _ => some (strLower (String.mk e))
  | _ => none

/-- `mimetypes.guess_type` as used by `Page.screenshot`. -/
def guessMimeType (p : String) : Option String :=
  (fileExtension p).bind mimeTable.lookup

/-- Python rendering of the guessed mime type inside the f-string error
message (`None` when absent). -/
def pyShowOptStr : Option String → String
  | none => "None"
  | some s => s

/-- Final assignment chain of `Page.screenshot`: the explicit `type`
option overwrites any path-derived encoding, and a still-unset or falsy
(empty) encoding becomes `png`. -/
def screenshotTypeResolve (fromPath : Option String)
    (typeOption : Option String) : String :=
  let st := match typeOption with
    | some t => some t
    | none => fromPath
  match st with
  | some t => if t = "" then "png" else t
  | none => "png"

/-- Encoding selection of `Page.screenshot` (lines 629-646): when a path
is present its guessed mime type must be png or jpeg — anything else
raises before the `type` option is even consulted; afterwards an explicit
`type` option overwrites the path-derived encoding and the default is
`png`. -/
def screenshotTypeOf (path : Option String) (typeOption : Option String) :
    Except PyError String :=
  match path with
  | none => .ok (screenshotTypeResolve none typeOption)
  | some p =>
    if guessMimeType p = some "image/png" then
      .ok (screenshotTypeResolve (some "png") typeOption)
    else if guessMimeType p = some "image/jpeg" then
      .ok (screenshotTypeResolve (some "jpeg") typeOption)
    else
      .error (.pageError ("Unsupported screenshot mime type: "
        ++ pyShowOptStr (guessMimeType p)))

/-- `Page.screenshot`: select the encoding, then run the capture task. -/
def screenshot (env : ScreenshotEnv) (options : ScreenshotOptions)
    (viewport : Viewport) : List Cmd × Except PyError String :=
  match screenshotTypeOf options.path options.type? with
  | .error e => ([], .error e)
  | .ok t => _screenshotTask env t options viewport


/-- The `printToPDF` payload `Page.pdf` builds when every option except
`format` is left at its default, for the given paper size. -/
def defaultPdfParamsFor (w h : ℚ) : PdfParams :=
  { landscape := false, displayHeaderFooter := false, headerTemplate := "",
    footerTemplate := "", printBackground := false, scale := 1,
    paperWidth := w, paperHeight := h, marginTop := 0, marginBottom := 0,
    marginLeft := 0, marginRight := 0, pageRanges := "" }

theorem lookup_append_single {α : Type} (b : List (String × α)) (k : String)
    (v : α) (h : b.lookup k = none) : (b ++ [(k, v)]).lookup k = some v := by
  induction b with
  | nil => simp [List.lookup]
  | cons p t ih =>
    obtain ⟨k', v'⟩ := p
    by_cases hk : k = k'
    · subst hk
      simp [List.lookup] at h
    · have hbe : (k == k') = false := by simp [hk]
      simp only [List.cons_append, List.lookup, hbe] at h ⊢
      exact ih h

theorem dictSet_fresh {α : Type} (d : List (String × α)) (k : String)
    (v : α) (h : d.lookup k = none) : dictSet d k v = d ++ [(k, v)] := by
  simp [dictSet, h]

/-- C1: the claim says an out-of-bounds target history index makes
`goBack`/`goForward` return no response and issue no navigation command,
and in particular `goBack` at history index 0 returns `None`.  The code
instead has `goBack` at index 0 compute `_count = -1`, pass the
`len(entries) < _count` guard, wrap around via Python negative indexing
and navigate to the LAST history entry; `goForward` at the newest entry
computes `_count = len(entries)`, also passes the guard, and raises
`IndexError`. -/
theorem C1_goBack_out_of_bounds_navigates :
    goBack { currentIndex := 0, entries := [⟨10⟩, ⟨20⟩] } = .ok (some 20) ∧
    goForward { currentIndex := 1, entries := [⟨10⟩, ⟨20⟩] } =
      .error .indexError := by
  decide

/-- C7: the claim says every `Performance.metrics` notification yields a
`metrics-sample` event with the page title and the allowlist-filtered
mapping.  The code's `Page.Events` namespace has no `Metrics` attribute,
so `Page._emitMetrics` raises `AttributeError` on every notification and
emits nothing, even though the filtering helper itself is correct. -/
theorem C7_emitMetrics_attribute_error :
    _emitMetrics "T" [⟨"Nodes", 5⟩, ⟨"Bogus", 7⟩] =
      .error (.attributeError "Metrics") ∧
    buildMetricsObject [⟨"Nodes", 5⟩, ⟨"Bogus", 7⟩] = [("Nodes", 5)] ∧
    pageEventsAttrs.lookup "Metrics" = none := by
  decide

/-- C8: `convertPrintParameterToInches` maps the number 36 to 0.375
inches, the string "2in" to 2.0, the string "1cm" to 1 * 37.8 / 96 =
0.39375, interprets a string whose two-character suffix is not a
recognized unit entirely as a pixel value, and maps `None` to no
value. -/
theorem C8_convertPrintParameterToInches :
    convertPrintParameterToInches (some (.num 36)) = .ok (some 0.375) ∧
    convertPrintParameterToInches (some (.str "2in")) = .ok (some 2) ∧
    convertPrintParameterToInches (some (.str "1cm")) =
      .ok (some (1 * 37.8 / 96)) ∧
    (∀ (s : String) (v : ℚ),
      unitToPixels.lookup (strLower (lastTwoChars s)) = none →
      parsePyFloat s = some v →
      convertPrintParameterToInches (some (.str s)) = .ok (some (v / 96))) ∧
    convertPrintParameterToInches none = .ok none := by
  refine ⟨?_, ?_, ?_, ?_, rfl⟩
  · simp only [convertPrintParameterToInches]
    norm_num
  · have h1 : unitToPixels.lookup (strLower (lastTwoChars "2in")) =
        some 96 := rfl
    have h2 : parsePyFloat (dropLastTwoChars "2in") =
        some ((2 : ℕ) : ℚ) := rfl
    simp only [convertPrintParameterToInches, h1, h2]
    norm_num
  · have h1 : unitToPixels.lookup (strLower (lastTwoChars "1cm")) =
        some 37.8 := rfl
    have h2 : parsePyFloat (dropLastTwoChars "1cm") =
        some ((1 : ℕ) : ℚ) := rfl
    simp only [convertPrintParameterToInches, h1, h2]
    norm_num
  · intro s v h1 h2
    simp [convertPrintParameterToInches, h1, h2]

/-- Witness for C8: the suffix "00" of "100" is not a recognized unit, so
the entire string is read as a pixel count. -/
theorem C8_convertPrintParameterToInches_witness :
    convertPrintParameterToInches (some (.str "100")) =
      .ok (some (((100 : ℕ) : ℚ) / 96)) :=
  C8_convertPrintParameterToInches.2.2.2.1 "100" ((100 : ℕ) : ℚ) rfl rfl

/-- C9: the paper-format lookup of `Page.pdf` lowercases the requested
format, so it is case-insensitive; "A4" yields paper width 8.27 and
height 11.7; a format absent from the table raises a usage error
(`ValueError`) and no print command is issued. -/
theorem C9_pdf_paper_format :
    pdf { format := some "A4" } = .ok (defaultPdfParamsFor 8.27 11.7) ∧
    (∀ (s : String) (w h : ℚ),
      PaperFormats.lookup (strLower s) = some (w, h) →
      pdf { format := some s } = .ok (defaultPdfParamsFor w h)) ∧
    (∀ s : String, PaperFormats.lookup (strLower s) = none →
      pdf { format := some s } =
        .error (.valueError ("Unknown paper format: " ++ s)) ∧
      (PyError.valueError ("Unknown paper format: " ++ s)).isUsageError =
        true) := by
  refine ⟨?_, ?_, ?_⟩
  · have hl : PaperFormats.lookup (strLower "A4") = some (8.27, 11.7) := rfl
    simp [pdf, hl, convertPrintParameterToInches, pyOrQ, defaultPdfParamsFor]
  · intro s w h hl
    simp [pdf, hl, convertPrintParameterToInches, pyOrQ, defaultPdfParamsFor]
  · intro s hl
    exact ⟨by simp [pdf, hl], rfl⟩

/-- Witness for C9: a mixed-case format name resolves through the
lowercased lookup to the letter paper size. -/
theorem C9_pdf_paper_format_witness :
    pdf { format := some "LeTtEr" } = .ok (defaultPdfParamsFor 8.5 11) :=
  C9_pdf_paper_format.2.1 "LeTtEr" 8.5 11 rfl

/-- Counterexample to C2 as stated: a debug-typed console notification
whose first argument is a non-primitive remote object (no `value` entry)
is not a disguised page-binding record, yet with zero listeners the
handler raises `KeyError` out of the detection expression
`_args[0]['value']` instead of releasing the argument handles. -/
theorem C2_counterexample :
    isPageBindingRecord ⟨"debug", [{ value? := none }], 7⟩ = false ∧
    onConsoleAPI false ⟨"debug", [{ value? := none }], 7⟩ =
      .error (.keyError "value") ∧
    onConsoleAPI false ⟨"debug", [{ value? := none }], 7⟩ ≠
      .ok (.releaseAll [{ value? := none }]) := by
  decide

/-- C2 (amended): for every console-API notification on which the
page-binding detection itself does not fault (the notification is not
debug-typed with a valueless first argument) and that is not a disguised
page-binding record, the handler releases every argument and emits
nothing when zero console listeners are subscribed, and emits exactly one
console event carrying the per-argument materialization tasks in the
original call order when at least one listener is subscribed. -/
theorem C2_console_dispatch (hasListeners : Bool) (e : ConsoleEvent)
    (hsafe : bindingProbeFaults e = false)
    (hrec : isPageBindingRecord e = false) :
    onConsoleAPI hasListeners e = .ok (onConsoleDefault hasListeners e) ∧
    (hasListeners = false →
      onConsoleAPI hasListeners e = .ok (.releaseAll e.args)) ∧
    (hasListeners = true →
      onConsoleAPI hasListeners e =
        .ok (.emitConsole (e.args.map valueFromRemoteObject))) := by
  have hmain : onConsoleAPI hasListeners e =
      .ok (onConsoleDefault hasListeners e) := by
    obtain ⟨t, args, cid⟩ := e
    cases args with
    | nil => simp [onConsoleAPI]
    | cons a rest =>
      by_cases ht : t = "debug"
      · subst ht
        cases hv : a.value? with
        | none => simp [bindingProbeFaults, hv] at hsafe
        | some v =>
          have hvne : v ≠ "driver:page-binding" := by
            simp [isPageBindingRecord, hv] at hrec
            exact hrec
          simp [onConsoleAPI, hv, hvne]
      · simp [onConsoleAPI, ht]
  refine ⟨hmain, ?_, ?_⟩
  · intro h
    subst h
    rw [hmain]
    simp [onConsoleDefault]
  · intro h
    subst h
    rw [hmain]
    simp [onConsoleDefault]

/-- Witness for C2: an ordinary two-argument log message with a listener
subscribed yields one console event with both values in order. -/
theorem C2_console_dispatch_witness :
    onConsoleAPI true ⟨"log", [⟨some "x"⟩, ⟨none⟩], 3⟩ =
      .ok (.emitConsole
        ([⟨some "x"⟩, ⟨none⟩].map valueFromRemoteObject)) :=
  (C2_console_dispatch true ⟨"log", [⟨some "x"⟩, ⟨none⟩], 3⟩
    (by decide) (by decide)).2.2 rfl

/-- C3: registering a binding name that is free succeeds, and a second
`exposeFunction` call with the same name fails with a usage error
(`PageError`) before any command is issued, leaving the bindings dict
unchanged — it still maps the name to the originally registered
callable. -/
theorem C3_exposeFunction_duplicate {α : Type} (b : List (String × α))
    (frames : List Nat) (name : String) (f g : α)
    (h : b.lookup name = none) :
    (exposeFunction b frames name f).error? = none ∧
    (exposeFunction b frames name f).pageBindings.lookup name = some f ∧
    ((exposeFunction (exposeFunction b frames name f).pageBindings
        frames name g).error?.map PyError.isUsageError = some true) ∧
    (exposeFunction (exposeFunction b frames name f).pageBindings
        frames name g).commands = [] ∧
    (exposeFunction (exposeFunction b frames name f).pageBindings
        frames name g).pageBindings =
      (exposeFunction b frames name f).pageBindings ∧
    (exposeFunction (exposeFunction b frames name f).pageBindings
        frames name g).pageBindings.lookup name = some f := by
  have hb1 : (exposeFunction b frames name f).pageBindings =
      b ++ [(name, f)] := by
    simp [exposeFunction, h, dictSet_fresh b name f h]
  have hlook : (exposeFunction b frames name f).pageBindings.lookup name =
      some f := by
    rw [hb1]
    exact lookup_append_single b name f h
  have hsecond : exposeFunction (exposeFunction b frames name f).pageBindings
      frames name g =
      { pageBindings := (exposeFunction b frames name f).pageBindings
        commands := []
        error? := some (.pageError ("Failed to add page binding with name "
          ++ name ++ ": window[\"" ++ name ++ "\"] already exists!")) } := by
    generalize hB : (exposeFunction b frames name f).pageBindings = B
      at hlook ⊢
    simp [exposeFunction, hlook]
  refine ⟨by simp [exposeFunction, h], hlook, ?_, ?_, ?_, ?_⟩ <;>
    rw [hsecond]
  · simp [PyError.isUsageError]
  · exact hlook

/-- Witness for C3: exposing "compute" twice on a fresh controller. -/
theorem C3_exposeFunction_duplicate_witness :
    (exposeFunction
      (exposeFunction ([] : List (String × Nat)) [0] "compute" 5).pageBindings
      [0] "compute" 6).commands = [] :=
  (C3_exposeFunction_duplicate [] [0] "compute" 5 6 rfl).2.2.2.1

/-- Counterexample to C5 as stated: when `Page.navigate` returns an error
text, `goto` raises before the `watcher.cancel()` and
`removeEventListeners` lines, so the call settles with an error while its
request listener is still subscribed and its watcher still active —
contradicting the claim that settlement always unsubscribes the
navigation-scoped listeners and cancels the watcher. -/
theorem C5_counterexample :
    (goto { navigateOutcome := .ok (some "net::ERR_ABORTED") }).outcome =
      .error (.pageError "net::ERR_ABORTED") ∧
    (goto { navigateOutcome := .ok (some "net::ERR_ABORTED") }).listenersRemoved = false ∧
    (goto { navigateOutcome := .ok (some "net::ERR_ABORTED") }).watcherCancelled = false ∧
    (waitForNavigation {}).watcherCancelled = false := by
  decide

/-- C5 (amended): when the navigate command succeeds, `goto` removes its
request listener and cancels its watcher on settlement, before raising
any watcher-reported error; but when the navigate command fails
synchronously (a raised command or a returned error text) `goto` raises
immediately without removing the listener or cancelling the watcher; and
`waitForNavigation` removes its response listener on every settlement but
never cancels its watcher. -/
theorem C5_navigation_cleanup (genv : GotoEnv)
    (wenv : WaitForNavigationEnv) :
    (genv.navigateOutcome = .ok none →
      (goto genv).listenersRemoved = true ∧
      (goto genv).watcherCancelled = true) ∧
    (∀ msg : String, genv.navigateOutcome = .ok (some msg) →
      (goto genv).listenersRemoved = false ∧
      (goto genv).watcherCancelled = false ∧
      (goto genv).outcome = .error (.pageError msg)) ∧
    (∀ e : PyError, genv.navigateOutcome = .error e →
      (goto genv).listenersRemoved = false ∧
      (goto genv).watcherCancelled = false ∧
      (goto genv).outcome = .error e) ∧
    (waitForNavigation wenv).listenersRemoved = true ∧
    (waitForNavigation wenv).watcherCancelled = false := by
  refine ⟨?_, ?_, ?_, ?_, ?_⟩
  · intro hn
    cases hw : genv.watcherError <;> simp [goto, hn, hw]
  · intro msg hn
    simp [goto, hn]
  · intro e hn
    simp [goto, hn]
  · cases hw : wenv.watcherError <;> simp [waitForNavigation, hw]
  · cases hw : wenv.watcherError <;> simp [waitForNavigation, hw]

/-- Witness for C5: a successful navigation settles with the listener
removed and the watcher cancelled. -/
theorem C5_navigation_cleanup_witness :
    (goto { navigateOutcome := .ok none }).listenersRemoved = true ∧
    (goto { navigateOutcome := .ok none }).watcherCancelled = true :=
  (C5_navigation_cleanup { navigateOutcome := .ok none } {}).1 rfl

/-- Counterexample to C6 as stated: with an explicit type option "png"
and a path whose extension maps to the unsupported mime type text/plain,
`Page.screenshot` raises instead of using the explicit type — the claim
that an explicit type prevents the extension from causing a failure is
false on the code. -/
theorem C6_counterexample :
    screenshotTypeOf (some "shot.txt") (some "png") =
      .error (.pageError "Unsupported screenshot mime type: text/plain") ∧
    screenshotTypeOf none (some "png") = .ok "png" := by
  constructor <;> rfl

/-- C6 (amended): the encoding is the explicit type option when present
(overriding any path-derived encoding), else the path-derived encoding,
else "png"; but whenever a path is present its guessed mime type must be
image/png or image/jpeg — any other guess raises a usage error before the
type option is consulted, even when an explicit type is provided. -/
theorem C6_screenshot_type (p t : String) (tOpt : Option String)
    (hne : t ≠ "") :
    (guessMimeType p = some "image/png" →
      screenshotTypeOf (some p) (some t) = .ok t) ∧
    (guessMimeType p = some "image/jpeg" →
      screenshotTypeOf (some p) (some t) = .ok t) ∧
    (guessMimeType p ≠ some "image/png" →
      guessMimeType p ≠ some "image/jpeg" →
      screenshotTypeOf (some p) tOpt =
        .error (.pageError ("Unsupported screenshot mime type: "
          ++ pyShowOptStr (guessMimeType p)))) ∧
    (guessMimeType p = some "image/png" →
      screenshotTypeOf (some p) none = .ok "png") ∧
    (guessMimeType p = some "image/jpeg" →
      screenshotTypeOf (some p) none = .ok "jpeg") ∧
    screenshotTypeOf none (some t) = .ok t ∧
    screenshotTypeOf none none = .ok "png" := by
  refine ⟨?_, ?_, ?_, ?_, ?_, ?_, rfl⟩
  · intro hm
    simp [screenshotTypeOf, hm, screenshotTypeResolve, hne]
  · intro hm
    simp [screenshotTypeOf, hm, screenshotTypeResolve, hne]
  · intro h1 h2
    simp [screenshotTypeOf, h1, h2]
  · intro hm
    simp [screenshotTypeOf, hm, screenshotTypeResolve]
  · intro hm
    simp [screenshotTypeOf, hm, screenshotTypeResolve]
  · simp [screenshotTypeOf, screenshotTypeResolve, hne]

/-- Witness for C6: an explicit jpeg type overrides a png extension. -/
theorem C6_screenshot_type_witness :
    screenshotTypeOf (some "shot.png") (some "jpeg") = .ok "jpeg" :=
  (C6_screenshot_type "shot.png" "jpeg" none (by decide)).1 rfl

/-- Counterexample to C4 as stated: `Page._screenshotTask` has no
try/finally, so when `Page.captureScreenshot` fails during a full-page
shot the error propagates and the device-metrics override applied for the
capture is never undone — the emulated state after the call is still the
content-size override, not the pre-capture viewport state. -/
theorem C4_counterexample :
    (_screenshotTask ⟨1000, 2000, .error (.pageError "Protocol error"), false⟩
        "png" { fullPage := true } ⟨800, 600, none, none, none⟩).2 =
      .error (.pageError "Protocol error") ∧
    emuAfter (.fromViewport ⟨800, 600, none, none, none⟩)
        (_screenshotTask ⟨1000, 2000, .error (.pageError "Protocol error"),
          false⟩ "png" { fullPage := true } ⟨800, 600, none, none, none⟩).1 ≠
      .fromViewport ⟨800, 600, none, none, none⟩ := by
  decide

/-- C4 (amended): for a full-page screenshot, when the capture command
succeeds the prior viewport is reapplied through the emulation manager,
so the emulated device-metrics state after the call equals the
pre-capture state; but when the capture command fails the error
propagates and the state is left at the device-metrics override computed
from the content size. -/
theorem C4_viewport_restore (env : ScreenshotEnv) (format : String)
    (options : ScreenshotOptions) (v : Viewport)
    (hfp : options.fullPage = true) :
    (∀ data : String, env.captureResult = .ok data →
      emuAfter (.fromViewport v) (_screenshotTask env format options v).1 =
        .fromViewport v) ∧
    (∀ e : PyError, env.captureResult = .error e →
      (_screenshotTask env format options v).2 = .error e ∧
      emuAfter (.fromViewport v) (_screenshotTask env format options v).1 =
        .overridden (v.isMobile.getD false) (mathCeil env.contentWidth)
          (mathCeil env.contentHeight) (v.deviceScaleFactor.getD 1)
          (if v.isLandscape.getD false then 90 else 0)
          (if v.isLandscape.getD false then "landscapePrimary"
           else "portraitPrimary")) := by
  constructor
  · intro data hcap
    cases homit : options.omitBackground <;>
      cases hpath : options.path <;>
        cases hnr : env.needsReload <;>
          simp [_screenshotTask, hfp, hcap, homit, hpath, hnr, setViewport,
            emuAfter, emuStep]
  · intro e hcap
    cases homit : options.omitBackground <;>
      simp [_screenshotTask, hfp, hcap, homit, emuAfter, emuStep]

/-- Witness for C4: a successful full-page capture ends with the
emulated state back at the saved viewport. -/
theorem C4_viewport_restore_witness :
    emuAfter (.fromViewport ⟨800, 600, none, none, none⟩)
      (_screenshotTask ⟨1000, 2000, .ok "DATA", false⟩ "png"
        { fullPage := true } ⟨800, 600, none, none, none⟩).1 =
      .fromViewport ⟨800, 600, none, none, none⟩ :=
  (C4_viewport_restore ⟨1000, 2000, .ok "DATA", false⟩ "png"
    { fullPage := true } ⟨800, 600, none, none, none⟩ rfl).1 "DATA" rfl

/-- C10: `Page.setViewport` stores the viewport and, when the emulation
manager reports that applying it requires a reload, performs a full page
reload before returning; consequently the viewport-restoration step of a
successful full-page screenshot can itself trigger a page reload. -/
theorem C10_setViewport_reload (v : Viewport) (env : ScreenshotEnv)
    (format : String) (options : ScreenshotOptions) (data : String)
    (hfp : options.fullPage = true) (hcap : env.captureResult = .ok data)
    (hnr : env.needsReload = true) :
    (setViewport true v).2 = v ∧
    Cmd.reload ∈ (setViewport true v).1 ∧
    Cmd.reload ∉ (setViewport false v).1 ∧
    Cmd.reload ∈ (_screenshotTask env format options v).1 := by
  refine ⟨rfl, by simp [setViewport], by simp [setViewport], ?_⟩
  cases homit : options.omitBackground <;>
    cases hpath : options.path <;>
      simp [_screenshotTask, hfp, hcap, homit, hpath, hnr, setViewport]

/-- Witness for C10: a full-page screenshot whose viewport restore needs
a reload issues one. -/
theorem C10_setViewport_reload_witness :
    Cmd.reload ∈ (_screenshotTask ⟨1000, 2000, .ok "DATA", true⟩ "png"
      { fullPage := true } ⟨800, 600, none, none, none⟩).1 :=
  (C10_setViewport_reload ⟨800, 600, none, none, none⟩
    ⟨1000, 2000, .ok "DATA", true⟩ "png" { fullPage := true } "DATA"
    rfl rfl rfl).2.2.2
